import Mathlib

/-!
Shallow embedding of the chai-backend core (controllers and Mongoose
schemas) together with proofs about the view-assembly, toggle-edge,
pagination and cascade behaviour of the code.

Document identifiers are modelled as natural numbers; each Mongo
collection is a `List` of documents; `findOne`/`findById` become
`List.find?`, `findByIdAndDelete` becomes `List.eraseP` on the id,
`create` appends a document carrying a fresh id, aggregation stages
become `filter`/`map`/sort/`drop`/`take` over the list.
-/

namespace ChaiBackend

abbrev Id := Nat

/-- A `User` document.  The fields mirror the user schema: public
profile fields together with the sensitive `password` and
`refreshToken` fields that a public projection must strip. -/
structure UserDoc where
  id : Id
  username : String
  fullName : String
  avatar : String
  password : String
  refreshToken : String
  deriving Repr, DecidableEq

/-- The shape produced by the `$project { username, avatar }` stage
used by the owner lookups that do project (tweet and comment views). -/
structure OwnerPublic where
  id : Id
  username : String
  avatar : String
  deriving Repr, DecidableEq

/-- A `Video` document (fields the core touches). -/
structure VideoDoc where
  id : Id
  owner : Id
  title : String
  description : String
  views : Nat
  duration : Nat
  isPublished : Bool
  createdAt : Nat
  deriving Repr, DecidableEq

/-- A `Tweet` document. -/
structure TweetDoc where
  id : Id
  owner : Id
  content : String
  deriving Repr, DecidableEq

/-- A `Comment` document (`video` is the target video reference). -/
structure CommentDoc where
  id : Id
  owner : Id
  video : Option Id
  content : String
  createdAt : Nat
  deriving Repr, DecidableEq

/-- A `Playlist` document; `videos` is the stored array of video ids. -/
structure PlaylistDoc where
  id : Id
  owner : Id
  name : String
  description : String
  videos : List Id
  deriving Repr, DecidableEq

/-- A `Like` document: `likedBy` is required, and the target is one of
`video`/`comment`/`tweet` (the schema leaves all three optional). -/
structure LikeDoc where
  id : Id
  video : Option Id
  comment : Option Id
  tweet : Option Id
  likedBy : Id
  deriving Repr, DecidableEq

/-- A `Subscription` document: the edge `subscriber → channel`. -/
structure SubDoc where
  id : Id
  subscriber : Id
  channel : Id
  deriving Repr, DecidableEq

/-! ## Schema declarations (src/src/models)

The Mongoose schemas are transcribed as data so that statements about
what the schema does and does not declare can be checked.  A field
spec records the `required` flag, a `unique` flag (Mongoose field
option) and the `ref` target; `uniqueIndexes` records every compound
index declared with a uniqueness option via `schema.index`. -/

structure SchemaField where
  name : String
  required : Bool
  unique : Bool
  ref : Option String
  deriving Repr, DecidableEq

structure SchemaSpec where
  fields : List SchemaField
  uniqueIndexes : List (List String)
  deriving Repr, DecidableEq

/-- `subscriptionSchema` from src/src/models/subscription.models.js:
two required `ObjectId` fields referencing `User`, no field marked
unique and no index declaration anywhere in the file. -/
def subscriptionSchema : SchemaSpec :=
  { fields :=
      [ { name := "subscriber", required := true, unique := false, ref := some "User" }
      , { name := "channel", required := true, unique := false, ref := some "User" } ]
  , uniqueIndexes := [] }

/-- `likeSchema` from the like model file: three optional target
references and a required `likedBy`, again with no unique field option
and no index declaration. -/
def likeSchema : SchemaSpec :=
  { fields :=
      [ { name := "comment", required := false, unique := false, ref := some "Comment" }
      , { name := "video", required := false, unique := false, ref := some "Video" }
      , { name := "tweet", required := false, unique := false, ref := some "Tweet" }
      , { name := "likedBy", required := true, unique := false, ref := some "User" } ]
  , uniqueIndexes := [] }

/-- Whether a schema declares a store-level uniqueness constraint
covering the pair of fields `a`, `b`: either a compound unique index
containing both, or (degenerately) one of the two fields carrying the
`unique` field option. -/
def declaresPairUniqueness (s : SchemaSpec) (a b : String) : Bool :=
  s.uniqueIndexes.any (fun ix => ix.contains a && ix.contains b) ||
  s.fields.any (fun f => (f.name == a || f.name == b) && f.unique)

/-- Store-level insert into the subscription collection: the store
rejects a write only when a declared uniqueness constraint on
(subscriber, channel) is violated; with no constraint declared it
appends unconditionally. -/
def insertSub (s : SchemaSpec) (subs : List SubDoc) (d : SubDoc) : Option (List SubDoc) :=
  if declaresPairUniqueness s "subscriber" "channel" &&
     subs.any (fun x => x.subscriber == d.subscriber && x.channel == d.channel) then
    none
  else
    some (subs ++ [d])

/-! ## JavaScript `parseInt` and the page/limit validation

`getAllVideos` (video.controller.js) and `getVideoComments`
(comment controller, part_003) run
`parseInt(page, 10)` / `parseInt(limit, 10)` and reject the request
with a 400 error when either result `isNaN` or is `< 1`. -/

/-- Fold a non-empty digit list into a natural number. -/
def digitsVal : List Char → Nat :=
  List.foldl (fun a c => a * 10 + (c.toNat - 48)) 0

/-- JavaScript `parseInt(s, 10)`: skip leading spaces, accept an
optional sign, then read the longest digit prefix; `none` models
`NaN` (no digits at all).  A fractional part such as `".5"` is simply
trailing garbage and is ignored. -/
def parseIntJs (s : String) : Option Int :=
  let cs := s.toList.dropWhile (fun c => c == ' ')
  match cs with
  | '-' :: rest =>
    let ds := rest.takeWhile Char.isDigit
    if ds.isEmpty then none else some (-(digitsVal ds : Int))
  | '+' :: rest =>
    let ds := rest.takeWhile Char.isDigit
    if ds.isEmpty then none else some (digitsVal ds : Int)
  | _ =>
    let ds := cs.takeWhile Char.isDigit
    if ds.isEmpty then none else some (digitsVal ds : Int)

/-- The shared page/limit validation of `getAllVideos` and the
part_003 `getVideoComments`: parse both with `parseInt` and fail
(`none`, surfaced as ApiError 400) when either is NaN or `< 1`. -/
def parsePageLimit (page limit : String) : Option (Int × Int) :=
  match parseIntJs page, parseIntJs limit with
  | some p, some l => if p < 1 || l < 1 then none else some (p, l)
  | _, _ => none

/-! ## Toggle handlers (like.controller.js, subscription.controller.js)

Each handler runs `findOne` on the (target, likedBy) pair; if an edge
is found it is deleted by its own id (`findByIdAndDelete`) and the
response flag is `false`; otherwise a fresh edge is created and the
flag is `true`.  A fresh document id is drawn from the `nid` counter.
The 400 (malformed id) and 401 (no session) guards run before any
store access, so the embedded functions model the authenticated,
well-formed-id path; store writes are modelled as always succeeding
(the 500 branches are unreachable then). -/

def vMatch (u v : Id) (l : LikeDoc) : Bool := l.video == some v && l.likedBy == u

def cMatch (u c : Id) (l : LikeDoc) : Bool := l.comment == some c && l.likedBy == u

def tMatch (u t : Id) (l : LikeDoc) : Bool := l.tweet == some t && l.likedBy == u

/-- `toggleVideoLike`: returns the new like collection, the next free
id and the `isLiked` flag of the response body.  The videos
collection is never consulted. -/
def toggleVideoLike (likes : List LikeDoc) (nid u v : Id) :
    List LikeDoc × Id × Bool :=
  match likes.find? (vMatch u v) with
  | some existing => (likes.eraseP (fun l => l.id == existing.id), nid, false)
  | none =>
    (likes ++ [{ id := nid, video := some v, comment := none, tweet := none, likedBy := u }],
     nid + 1, true)

/-- `toggleCommentLike`: identical structure, matching on the
`comment` field; the comments collection is never consulted. -/
def toggleCommentLike (likes : List LikeDoc) (nid u c : Id) :
    List LikeDoc × Id × Bool :=
  match likes.find? (cMatch u c) with
  | some existing => (likes.eraseP (fun l => l.id == existing.id), nid, false)
  | none =>
    (likes ++ [{ id := nid, video := none, comment := some c, tweet := none, likedBy := u }],
     nid + 1, true)

/-- `toggleTweetLike`: identical structure, matching on the `tweet`
field; the tweets collection is never consulted. -/
def toggleTweetLike (likes : List LikeDoc) (nid u t : Id) :
    List LikeDoc × Id × Bool :=
  match likes.find? (tMatch u t) with
  | some existing => (likes.eraseP (fun l => l.id == existing.id), nid, false)
  | none =>
    (likes ++ [{ id := nid, video := none, comment := none, tweet := some t, likedBy := u }],
     nid + 1, true)

def sMatch (u ch : Id) (s : SubDoc) : Bool := s.subscriber == u && s.channel == ch

/-- `toggleSubscription`: rejects self-subscription with 400, then
checks `User.findById(channelId)` and rejects a missing channel with
404, then performs the same find-delete-or-create toggle; the flag is
the `isSubscribed` field of the response. -/
def toggleSubscription (users : List UserDoc) (subs : List SubDoc) (nid u ch : Id) :
    Except Nat (List SubDoc × Id × Bool) :=
  if u == ch then .error 400
  else
    match users.find? (fun x => x.id == ch) with
    | none => .error 404
    | some _ =>
      match subs.find? (sMatch u ch) with
      | some existing => .ok (subs.eraseP (fun s => s.id == existing.id), nid, false)
      | none => .ok (subs ++ [{ id := nid, subscriber := u, channel := ch }], nid + 1, true)

/-- Edge existence for a video like, as observed by a reader. -/
def videoLikeExists (likes : List LikeDoc) (u v : Id) : Bool :=
  likes.any (vMatch u v)

/-- Edge existence for a subscription. -/
def subExists (subs : List SubDoc) (u ch : Id) : Bool :=
  subs.any (sMatch u ch)

/-- N sequential `toggleVideoLike` calls for the same (actor, target)
pair, starting from `likes0`/`nid0`. -/
def iterVideoToggle (u v : Id) (likes0 : List LikeDoc) (nid0 : Id) : Nat → List LikeDoc × Id
  | 0 => (likes0, nid0)
  | n + 1 =>
    let s := iterVideoToggle u v likes0 nid0 n
    let r := toggleVideoLike s.1 s.2 u v
    (r.1, r.2.1)

/-- N sequential `toggleSubscription` calls for the same
(subscriber, channel) pair; an error response leaves the store
unchanged. -/
def iterSubToggle (users : List UserDoc) (u ch : Id) (subs0 : List SubDoc) (nid0 : Id) :
    Nat → List SubDoc × Id
  | 0 => (subs0, nid0)
  | n + 1 =>
    let s := iterSubToggle users u ch subs0 nid0 n
    match toggleSubscription users s.1 s.2 u ch with
    | .ok r => (r.1, r.2.1)
    | .error _ => s

/-! ## List helper lemmas

The toggle handlers all share the same find-then-delete-by-id /
create structure, so the facts needed about `find?`, `eraseP`,
`countP` and id-freshness are proved once, generically. -/

theorem countP_eq_zero_of_find?_none {α} {p : α → Bool} {l : List α}
    (h : l.find? p = none) : l.countP p = 0 := by
  rw [List.countP_eq_zero]
  intro a ha
  exact List.find?_eq_none.mp h a ha

theorem any_eq_decide_countP_pos {α} (p : α → Bool) (l : List α) :
    l.any p = decide (0 < l.countP p) := by
  by_cases h : ∃ x ∈ l, p x
  · rw [List.any_eq_true.mpr h, Eq.comm, decide_eq_true_eq]
    exact List.countP_pos_iff.mpr h
  · rw [List.any_eq_false.mpr, Eq.comm, decide_eq_false_iff_not]
    · intro hpos
      exact h (List.countP_pos_iff.mp hpos)
    · intro x hx
      exact fun hpx => h ⟨x, hx, hpx⟩

theorem countP_pos_of_find?_some {α} {p : α → Bool} {l : List α} {e : α}
    (h : l.find? p = some e) : 0 < l.countP p :=
  List.countP_pos_iff.mpr ⟨e, List.mem_of_find?_eq_some h, List.find?_some h⟩

/-- Deleting by the id of the unique match removes the last match:
if ids (`key`) are distinct in `l`, `e` is the first `p`-match and at
most one element matches `p`, then after erasing the element with
`e`'s id nothing matches `p`. -/
theorem countP_eraseP_key {α} (key : α → Nat) {p : α → Bool} {l : List α} {e : α}
    (hnd : (l.map key).Nodup) (hfind : l.find? p = some e)
    (hc : l.countP p ≤ 1) :
    (l.eraseP (fun a => key a == key e)).countP p = 0 := by
  induction l with
  | nil => simp at hfind
  | cons a t ih =>
    rw [List.map_cons, List.nodup_cons] at hnd
    by_cases hpa : p a
    · rw [List.find?_cons_of_pos _ hpa, Option.some_inj] at hfind
      subst hfind
      rw [List.eraseP_cons_of_pos (by simp)]
      have := hc
      rw [List.countP_cons_of_pos _ _ hpa] at this
      omega
    · rw [List.find?_cons_of_neg _ hpa] at hfind
      have hmem : e ∈ t := List.mem_of_find?_eq_some hfind
      have hkey : (key a == key e) = false := by
        rw [beq_eq_false_iff_ne]
        intro hk
        exact hnd.1 (hk ▸ List.mem_map_of_mem key hmem)
      rw [List.eraseP_cons_of_neg (by simp [hkey]), List.countP_cons_of_neg _ _ hpa]
      rw [List.countP_cons_of_neg _ _ hpa] at hc
      exact ih hnd.2 hfind hc

theorem nodup_map_key_eraseP {α} (key : α → Nat) (q : α → Bool) {l : List α}
    (hnd : (l.map key).Nodup) : ((l.eraseP q).map key).Nodup :=
  List.Nodup.sublist ((List.eraseP_sublist l).map key) hnd

theorem nodup_map_key_append {α} (key : α → Nat) {l : List α} {x : α}
    (hnd : (l.map key).Nodup) (hb : ∀ a ∈ l, key a < key x) :
    ((l ++ [x]).map key).Nodup := by
  rw [List.map_append, List.map_singleton, List.nodup_append]
  refine ⟨hnd, List.nodup_singleton _, ?_⟩
  intro k hk
  rcases List.mem_map.mp hk with ⟨a, ha, rfl⟩
  simp only [List.mem_singleton]
  exact Nat.ne_of_lt (hb a ha)

/-! ## Toggle step lemmas -/

/-- One `toggleVideoLike` call, from a well-formed store with at most
one edge for the pair: the pair-edge count flips between 0 and 1, the
response flag equals the post-call existence, and well-formedness is
preserved. -/
theorem toggleVideoLike_step (u v : Id) (likes : List LikeDoc) (nid : Id)
    (hnd : (likes.map (fun l => l.id)).Nodup)
    (hb : ∀ l ∈ likes, l.id < nid)
    (hc : likes.countP (vMatch u v) ≤ 1) :
    (toggleVideoLike likes nid u v).1.countP (vMatch u v)
        = 1 - likes.countP (vMatch u v) ∧
    (toggleVideoLike likes nid u v).2.2
        = decide (0 < (toggleVideoLike likes nid u v).1.countP (vMatch u v)) ∧
    ((toggleVideoLike likes nid u v).1.map (fun l => l.id)).Nodup ∧
    (∀ l ∈ (toggleVideoLike likes nid u v).1, l.id < (toggleVideoLike likes nid u v).2.1) := by
  unfold toggleVideoLike
  cases hfind : likes.find? (vMatch u v) with
  | some existing =>
    simp only
    have h0 : (likes.eraseP (fun l => l.id == existing.id)).countP (vMatch u v) = 0 :=
      countP_eraseP_key (fun l => l.id) hnd hfind hc
    have hpos := countP_pos_of_find?_some hfind
    refine ⟨by omega, by simp [h0], nodup_map_key_eraseP _ _ hnd, ?_⟩
    intro l hl
    exact hb l (List.mem_of_mem_eraseP hl)
  | none =>
    simp only
    have h0 := countP_eq_zero_of_find?_none hfind
    have hx : vMatch u v { id := nid, video := some v, comment := none, tweet := none, likedBy := u } = true := by
      simp [vMatch]
    refine ⟨?_, ?_, ?_, ?_⟩
    · rw [List.countP_append, h0, List.countP_cons_of_pos _ _ hx, List.countP_nil]
    · rw [List.countP_append, h0, List.countP_cons_of_pos _ _ hx, List.countP_nil]
      simp
    · exact nodup_map_key_append (fun l : LikeDoc => l.id) hnd hb
    · intro l hl
      rcases List.mem_append.mp hl with h | h
      · exact Nat.lt_succ_of_lt (hb l h)
      · rw [List.mem_singleton.mp h]
        exact Nat.lt_succ_self nid

/-- One successful `toggleSubscription` call (distinct ids, existing
channel): same flip/flag/well-formedness facts as for likes. -/
theorem toggleSubscription_step (u ch : Id) (users : List UserDoc) (subs : List SubDoc) (nid : Id)
    (hne : u ≠ ch) (w : UserDoc) (hch : users.find? (fun x => x.id == ch) = some w)
    (hnd : (subs.map (fun s => s.id)).Nodup)
    (hb : ∀ s ∈ subs, s.id < nid)
    (hc : subs.countP (sMatch u ch) ≤ 1) :
    ∃ r, toggleSubscription users subs nid u ch = .ok r ∧
      r.1.countP (sMatch u ch) = 1 - subs.countP (sMatch u ch) ∧
      r.2.2 = decide (0 < r.1.countP (sMatch u ch)) ∧
      (r.1.map (fun s => s.id)).Nodup ∧
      (∀ s ∈ r.1, s.id < r.2.1) := by
  unfold toggleSubscription
  rw [if_neg (by simp [hne]), hch]
  cases hfind : subs.find? (sMatch u ch) with
  | some existing =>
    have h0 : (subs.eraseP (fun s => s.id == existing.id)).countP (sMatch u ch) = 0 :=
      countP_eraseP_key (fun s => s.id) hnd hfind hc
    have hpos := countP_pos_of_find?_some hfind
    refine ⟨_, rfl, by dsimp only; omega, by simp [h0], nodup_map_key_eraseP _ _ hnd, ?_⟩
    dsimp only
    intro s hs
    exact hb s (List.mem_of_mem_eraseP hs)
  | none =>
    have h0 := countP_eq_zero_of_find?_none hfind
    have hx : sMatch u ch { id := nid, subscriber := u, channel := ch } = true := by
      simp [sMatch]
    refine ⟨_, rfl, ?_, ?_, ?_, ?_⟩
    · rw [List.countP_append, h0, List.countP_cons_of_pos _ _ hx, List.countP_nil]
    · rw [List.countP_append, h0, List.countP_cons_of_pos _ _ hx, List.countP_nil]
      simp
    · exact nodup_map_key_append (fun s : SubDoc => s.id) hnd hb
    · intro s hs
      rcases List.mem_append.mp hs with h | h
      · exact Nat.lt_succ_of_lt (hb s h)
      · rw [List.mem_singleton.mp h]
        exact Nat.lt_succ_self nid

/-- Invariant carried along a sequence of `toggleVideoLike` calls
starting from a store with no edge for the pair: after `N` calls the
pair-edge count is `N % 2` and the store stays well-formed. -/
theorem iterVideoToggle_invariant (u v : Id) (likes0 : List LikeDoc) (nid0 : Id)
    (hnd : (likes0.map (fun l => l.id)).Nodup)
    (hb : ∀ l ∈ likes0, l.id < nid0)
    (h0 : likes0.countP (vMatch u v) = 0) :
    ∀ N, (iterVideoToggle u v likes0 nid0 N).1.countP (vMatch u v) = N % 2 ∧
      ((iterVideoToggle u v likes0 nid0 N).1.map (fun l => l.id)).Nodup ∧
      (∀ l ∈ (iterVideoToggle u v likes0 nid0 N).1, l.id < (iterVideoToggle u v likes0 nid0 N).2) := by
  intro N
  induction N with
  | zero => exact ⟨h0, hnd, hb⟩
  | succ n ih =>
    obtain ⟨hcount, hnd', hb'⟩ := ih
    have hle : (iterVideoToggle u v likes0 nid0 n).1.countP (vMatch u v) ≤ 1 := by
      rw [hcount]; omega
    obtain ⟨h1, _, h3, h4⟩ :=
      toggleVideoLike_step u v (iterVideoToggle u v likes0 nid0 n).1
        (iterVideoToggle u v likes0 nid0 n).2 hnd' hb' hle
    refine ⟨?_, h3, h4⟩
    rw [show iterVideoToggle u v likes0 nid0 (n + 1)
          = ((toggleVideoLike (iterVideoToggle u v likes0 nid0 n).1
              (iterVideoToggle u v likes0 nid0 n).2 u v).1,
             (toggleVideoLike (iterVideoToggle u v likes0 nid0 n).1
              (iterVideoToggle u v likes0 nid0 n).2 u v).2.1) from rfl] at *
    rw [h1, hcount]
    omega

/-- Invariant carried along a sequence of `toggleSubscription` calls
(distinct subscriber/channel, channel present in the users
collection): after `N` calls the pair-edge count is `N % 2`. -/
theorem iterSubToggle_invariant (u ch : Id) (users : List UserDoc)
    (subs0 : List SubDoc) (nid0 : Id)
    (hne : u ≠ ch) (w : UserDoc) (hch : users.find? (fun x => x.id == ch) = some w)
    (hnd : (subs0.map (fun s => s.id)).Nodup)
    (hb : ∀ s ∈ subs0, s.id < nid0)
    (h0 : subs0.countP (sMatch u ch) = 0) :
    ∀ N, (iterSubToggle users u ch subs0 nid0 N).1.countP (sMatch u ch) = N % 2 ∧
      ((iterSubToggle users u ch subs0 nid0 N).1.map (fun s => s.id)).Nodup ∧
      (∀ s ∈ (iterSubToggle users u ch subs0 nid0 N).1, s.id < (iterSubToggle users u ch subs0 nid0 N).2) := by
  intro N
  induction N with
  | zero => exact ⟨h0, hnd, hb⟩
  | succ n ih =>
    obtain ⟨hcount, hnd', hb'⟩ := ih
    have hle : (iterSubToggle users u ch subs0 nid0 n).1.countP (sMatch u ch) ≤ 1 := by
      rw [hcount]; omega
    obtain ⟨r, hr, h1, _, h3, h4⟩ :=
      toggleSubscription_step u ch users (iterSubToggle users u ch subs0 nid0 n).1
        (iterSubToggle users u ch subs0 nid0 n).2 hne w hch hnd' hb' hle
    have hstep : iterSubToggle users u ch subs0 nid0 (n + 1) = (r.1, r.2.1) := by
      show (match toggleSubscription users (iterSubToggle users u ch subs0 nid0 n).1
              (iterSubToggle users u ch subs0 nid0 n).2 u ch with
            | .ok r => (r.1, r.2.1)
            | .error _ => iterSubToggle users u ch subs0 nid0 n) = (r.1, r.2.1)
      rw [hr]
    rw [hstep]
    refine ⟨?_, h3, h4⟩
    rw [h1, hcount]
    omega

/-- A concrete channel user used by witness instantiations. -/
def chanUser : UserDoc :=
  { id := 3, username := "c", fullName := "c", avatar := ""
  , password := "p", refreshToken := "t" }

/-! ## Claim C1 -/

/-- C1, counterexample.  The claim asserts that at-most-one-edge per
(actor, target) is enforced by a uniqueness constraint declared in the
schema.  It is false: neither `subscriptionSchema` nor `likeSchema`
declares any unique index or unique field option, and consequently the
store accepts two subscription edges with the same
(subscriber, channel) pair — here (1, 2) inserted twice. -/
theorem edge_uniqueness_not_declared_in_schema :
    declaresPairUniqueness subscriptionSchema "subscriber" "channel" = false ∧
    declaresPairUniqueness likeSchema "likedBy" "video" = false ∧
    declaresPairUniqueness likeSchema "likedBy" "comment" = false ∧
    declaresPairUniqueness likeSchema "likedBy" "tweet" = false ∧
    insertSub subscriptionSchema [] { id := 0, subscriber := 1, channel := 2 }
      = some [{ id := 0, subscriber := 1, channel := 2 }] ∧
    insertSub subscriptionSchema [{ id := 0, subscriber := 1, channel := 2 }]
        { id := 1, subscriber := 1, channel := 2 }
      = some [{ id := 0, subscriber := 1, channel := 2 },
              { id := 1, subscriber := 1, channel := 2 }] := by
  decide

/-- C1, amended: no uniqueness constraint on the (actor, target) pair
is declared at the store level in either edge schema; the at-most-one
edge-per-pair property is maintained only by the toggle handlers'
read-then-write logic, which under sequential execution does preserve
it (a store holding at most one edge for the pair still holds at most
one after a toggle call). -/
theorem edge_uniqueness_only_by_toggle_logic
    (u v ch : Id) (likes : List LikeDoc) (nid : Id)
    (users : List UserDoc) (subs : List SubDoc) (snid : Id) (w : UserDoc)
    (hnd : (likes.map (fun l => l.id)).Nodup)
    (hb : ∀ l ∈ likes, l.id < nid)
    (hc : likes.countP (vMatch u v) ≤ 1)
    (hne : u ≠ ch) (hch : users.find? (fun x => x.id == ch) = some w)
    (hsnd : (subs.map (fun s => s.id)).Nodup)
    (hsb : ∀ s ∈ subs, s.id < snid)
    (hsc : subs.countP (sMatch u ch) ≤ 1) :
    declaresPairUniqueness subscriptionSchema "subscriber" "channel" = false ∧
    declaresPairUniqueness likeSchema "likedBy" "video" = false ∧
    (toggleVideoLike likes nid u v).1.countP (vMatch u v) ≤ 1 ∧
    (toggleSubscription users subs snid u ch).map (fun r => r.1.countP (sMatch u ch) ≤ 1)
      = .ok True := by
  obtain ⟨h1, _, _, _⟩ := toggleVideoLike_step u v likes nid hnd hb hc
  obtain ⟨r, hr, hs1, _, _, _⟩ := toggleSubscription_step u ch users subs snid hne w hch hsnd hsb hsc
  refine ⟨by decide, by decide, by omega, ?_⟩
  rw [hr]
  simp only [Except.map]
  congr 1
  have : r.1.countP (sMatch u ch) ≤ 1 := by omega
  simp [this]

/-- C1 amended, witness at a concrete input: actor 1, targets 2
(video) and 3 (channel), empty like and subscription stores. -/
theorem edge_uniqueness_only_by_toggle_logic_witness :
    declaresPairUniqueness subscriptionSchema "subscriber" "channel" = false ∧
    declaresPairUniqueness likeSchema "likedBy" "video" = false ∧
    (toggleVideoLike [] 0 1 2).1.countP (vMatch 1 2) ≤ 1 ∧
    (toggleSubscription [chanUser] [] 0 1 3).map
      (fun r => r.1.countP (sMatch 1 3) ≤ 1) = .ok True :=
  edge_uniqueness_only_by_toggle_logic 1 2 3 [] 0
    [chanUser] [] 0
    chanUser
    (by decide) (by intro l hl; cases hl) (by decide)
    (by decide) (by decide) (by decide) (by intro s hs; cases hs) (by decide)

/-! ## Claim C2 -/

/-- C2.  Sequential toggle calls are pure toggles: starting from a
well-formed store holding no edge for the pair, after `N` calls to
`toggleVideoLike` (resp. `toggleSubscription`) the edge exists iff
`N` is odd, and every call's returned flag (`isLiked` /
`isSubscribed`) equals the post-call existence of the edge. -/
theorem toggle_alternates_existence
    (u v ch : Id) (likes0 : List LikeDoc) (nid0 : Id)
    (users : List UserDoc) (subs0 : List SubDoc) (snid0 : Id) (w : UserDoc)
    (hnd : (likes0.map (fun l => l.id)).Nodup)
    (hb : ∀ l ∈ likes0, l.id < nid0)
    (h0 : likes0.countP (vMatch u v) = 0)
    (hne : u ≠ ch) (hch : users.find? (fun x => x.id == ch) = some w)
    (hsnd : (subs0.map (fun s => s.id)).Nodup)
    (hsb : ∀ s ∈ subs0, s.id < snid0)
    (hs0 : subs0.countP (sMatch u ch) = 0) (N : Nat) :
    videoLikeExists (iterVideoToggle u v likes0 nid0 N).1 u v = decide (N % 2 = 1) ∧
    (toggleVideoLike (iterVideoToggle u v likes0 nid0 N).1
        (iterVideoToggle u v likes0 nid0 N).2 u v).2.2
      = videoLikeExists (iterVideoToggle u v likes0 nid0 (N + 1)).1 u v ∧
    subExists (iterSubToggle users u ch subs0 snid0 N).1 u ch = decide (N % 2 = 1) ∧
    (toggleSubscription users (iterSubToggle users u ch subs0 snid0 N).1
        (iterSubToggle users u ch subs0 snid0 N).2 u ch).map (fun r => r.2.2)
      = .ok (subExists (iterSubToggle users u ch subs0 snid0 (N + 1)).1 u ch) := by
  obtain ⟨hcount, hnd', hb'⟩ := iterVideoToggle_invariant u v likes0 nid0 hnd hb h0 N
  obtain ⟨hscount, hsnd', hsb'⟩ := iterSubToggle_invariant u ch users subs0 snid0 hne w hch hsnd hsb hs0 N
  have hmod : N % 2 = 0 ∨ N % 2 = 1 := Nat.mod_two_eq_zero_or_one N
  obtain ⟨h1, h2, _, _⟩ :=
    toggleVideoLike_step u v (iterVideoToggle u v likes0 nid0 N).1
      (iterVideoToggle u v likes0 nid0 N).2 hnd' hb' (by omega)
  obtain ⟨r, hr, hs1, hs2, _, _⟩ :=
    toggleSubscription_step u ch users (iterSubToggle users u ch subs0 snid0 N).1
      (iterSubToggle users u ch subs0 snid0 N).2 hne w hch hsnd' hsb' (by omega)
  have hstepS : iterSubToggle users u ch subs0 snid0 (N + 1) = (r.1, r.2.1) := by
    show (match toggleSubscription users (iterSubToggle users u ch subs0 snid0 N).1
            (iterSubToggle users u ch subs0 snid0 N).2 u ch with
          | .ok r => (r.1, r.2.1)
          | .error _ => iterSubToggle users u ch subs0 snid0 N) = (r.1, r.2.1)
    rw [hr]
  have hstepV : iterVideoToggle u v likes0 nid0 (N + 1)
      = ((toggleVideoLike (iterVideoToggle u v likes0 nid0 N).1
          (iterVideoToggle u v likes0 nid0 N).2 u v).1,
         (toggleVideoLike (iterVideoToggle u v likes0 nid0 N).1
          (iterVideoToggle u v likes0 nid0 N).2 u v).2.1) := rfl
  refine ⟨?_, ?_, ?_, ?_⟩
  · rw [videoLikeExists, any_eq_decide_countP_pos, hcount]
    rcases hmod with h | h <;> simp [h]
  · rw [h2, hstepV, videoLikeExists, any_eq_decide_countP_pos]
  · rw [subExists, any_eq_decide_countP_pos, hscount]
    rcases hmod with h | h <;> simp [h]
  · rw [hr, hstepS]
    simp only [Except.map]
    rw [hs2, subExists, any_eq_decide_countP_pos]

/-- C2, witness: actor 1, video 2, channel 3, empty stores, three
toggle calls — the edge exists after an odd number of calls and each
response flag matches the post-call state. -/
theorem toggle_alternates_existence_witness :
    videoLikeExists (iterVideoToggle 1 2 [] 0 3).1 1 2 = decide (3 % 2 = 1) ∧
    (toggleVideoLike (iterVideoToggle 1 2 [] 0 3).1 (iterVideoToggle 1 2 [] 0 3).2 1 2).2.2
      = videoLikeExists (iterVideoToggle 1 2 [] 0 (3 + 1)).1 1 2 ∧
    subExists (iterSubToggle [chanUser] 1 3 [] 0 3).1 1 3 = decide (3 % 2 = 1) ∧
    (toggleSubscription [chanUser]
      (iterSubToggle [chanUser] 1 3 [] 0 3).1
      (iterSubToggle [chanUser] 1 3 [] 0 3).2 1 3).map (fun r => r.2.2)
      = .ok (subExists (iterSubToggle [chanUser] 1 3 [] 0 (3 + 1)).1 1 3) :=
  toggle_alternates_existence 1 2 3 [] 0
    [chanUser] [] 0
    chanUser
    (by decide) (by intro l hl; cases hl) (by decide)
    (by decide) (by decide) (by decide) (by intro s hs; cases hs) (by decide) 3

/-! ## Claim C10 -/

/-- C10.  `toggleSubscription` checks that the channel user exists and
fails with 404 when it does not, while the like toggles perform no
existence check on their target: for an identifier that references no
existing video (resp. comment, tweet), the like toggle still succeeds
with flag `true` and leaves behind a like edge referencing the
non-existent target. -/
theorem toggle_target_checks_inconsistent
    (users : List UserDoc) (subs : List SubDoc) (snid u ch : Id)
    (hne : u ≠ ch) (hch : users.find? (fun x => x.id == ch) = none)
    (likes : List LikeDoc) (nid uid vid cid tid : Id)
    (videosDb : List VideoDoc) (commentsDb : List CommentDoc) (tweetsDb : List TweetDoc)
    (hvdangle : videosDb.all (fun x => x.id != vid) = true)
    (hcdangle : commentsDb.all (fun x => x.id != cid) = true)
    (htdangle : tweetsDb.all (fun x => x.id != tid) = true)
    (hfv : likes.find? (vMatch uid vid) = none)
    (hfc : likes.find? (cMatch uid cid) = none)
    (hft : likes.find? (tMatch uid tid) = none) :
    toggleSubscription users subs snid u ch = .error 404 ∧
    (toggleVideoLike likes nid uid vid).2.2 = true ∧
    (toggleVideoLike likes nid uid vid).1.any (fun l => l.video == some vid) = true ∧
    (toggleCommentLike likes nid uid cid).2.2 = true ∧
    (toggleCommentLike likes nid uid cid).1.any (fun l => l.comment == some cid) = true ∧
    (toggleTweetLike likes nid uid tid).2.2 = true ∧
    (toggleTweetLike likes nid uid tid).1.any (fun l => l.tweet == some tid) = true := by
  refine ⟨?_, ?_, ?_, ?_, ?_, ?_, ?_⟩
  · unfold toggleSubscription
    rw [if_neg (by simp [hne]), hch]
  · simp [toggleVideoLike, hfv]
  · simp [toggleVideoLike, hfv]
  · simp [toggleCommentLike, hfc]
  · simp [toggleCommentLike, hfc]
  · simp [toggleTweetLike, hft]
  · simp [toggleTweetLike, hft]

/-- C10, witness: empty collections, actor 1, targets 2/3/4/5: the
subscription toggle 404s on the missing channel, every like toggle
succeeds and dangles. -/
theorem toggle_target_checks_inconsistent_witness :
    toggleSubscription [] [] 0 1 5 = .error 404 ∧
    (toggleVideoLike [] 0 1 2).2.2 = true ∧
    (toggleVideoLike [] 0 1 2).1.any (fun l => l.video == some 2) = true ∧
    (toggleCommentLike [] 0 1 3).2.2 = true ∧
    (toggleCommentLike [] 0 1 3).1.any (fun l => l.comment == some 3) = true ∧
    (toggleTweetLike [] 0 1 4).2.2 = true ∧
    (toggleTweetLike [] 0 1 4).1.any (fun l => l.tweet == some 4) = true :=
  toggle_target_checks_inconsistent [] [] 0 1 5 (by decide) (by decide)
    [] 0 1 2 3 4 [] [] [] (by decide) (by decide) (by decide)
    (by decide) (by decide) (by decide)

/-! ## View pipelines (video.controller.js, comment controller part_003)

The aggregation pipeline is modelled stage by stage: `$match` is
`filter`, `$lookup` + `$first` is `filter`/`head?` over the joined
collection, `$size` is `countP`, `$sort` is a deterministic stable
sort on the sort key, `$skip`/`$limit` are `drop`/`take`. -/

/-- Stable insertion used by the sort model. -/
def insertSorted {α} (le : α → α → Bool) (x : α) : List α → List α
  | [] => [x]
  | y :: ys => if le x y then x :: y :: ys else y :: insertSorted le x ys

/-- Deterministic stable sort modelling the `$sort` stage. -/
def sortStable {α} (le : α → α → Bool) : List α → List α
  | [] => []
  | x :: xs => insertSorted le x (sortStable le xs)

theorem mem_insertSorted {α} (le : α → α → Bool) (x a : α) (l : List α) :
    a ∈ insertSorted le x l ↔ a = x ∨ a ∈ l := by
  induction l with
  | nil => simp [insertSorted]
  | cons y ys ih =>
    by_cases h : le x y
    · simp [insertSorted, h]
    · simp only [insertSorted, if_neg h, List.mem_cons, ih]
      tauto

theorem mem_sortStable {α} (le : α → α → Bool) (a : α) (l : List α) :
    a ∈ sortStable le l ↔ a ∈ l := by
  induction l with
  | nil => exact Iff.rfl
  | cons x xs ih => simp [sortStable, mem_insertSorted, ih]

/-- Contiguous-sublist test. -/
def infixOf {α} [BEq α] (needle : List α) : List α → Bool
  | [] => needle.isEmpty
  | x :: xs => needle.isPrefixOf (x :: xs) || infixOf needle xs

/-- Case-insensitive substring test modelling
`{ $regex: query, $options: "i" }`. -/
def iContains (hay needle : String) : Bool :=
  infixOf needle.toLower.toList hay.toLower.toList

/-- The `$match` stage assembled by `getAllVideos`: when a `userId`
filter is present the stage matches on `owner`, and adds
`isPublished: true` unless the authenticated viewer *is* that user;
with no `userId` filter it always adds `isPublished: true`; an
optional free-text query matches title or description
case-insensitively. -/
def videoMatchStage (userIdFilter viewer : Option Id) (query : Option String)
    (v : VideoDoc) : Bool :=
  (match userIdFilter with
   | some uid => v.owner == uid && (if viewer == some uid then true else v.isPublished)
   | none => v.isPublished) &&
  (match query with
   | some q => iContains v.title q || iContains v.description q
   | none => true)

/-- One row of the `getAllVideos` response: note that `ownerDetails`
is the *whole* joined `UserDoc` — the owner `$lookup` in
`getAllVideos` carries no projection sub-pipeline. -/
structure VideoView where
  video : VideoDoc
  ownerDetails : Option UserDoc
  likesCount : Nat
  deriving Repr, DecidableEq

/-- Sort key access for the allow-listed sort fields. -/
def videoSortKey (field : String) (v : VideoDoc) : Nat :=
  if field == "views" then v.views
  else if field == "duration" then v.duration
  else v.createdAt

/-- The sort-field allowlist with its `createdAt` fallback. -/
def videoSortField (sortBy : String) : String :=
  if (["createdAt", "views", "duration"] : List String).contains sortBy then sortBy
  else "createdAt"

def videoLe (field : String) (desc : Bool) (a b : VideoView) : Bool :=
  if desc then videoSortKey field b.video ≤ videoSortKey field a.video
  else videoSortKey field a.video ≤ videoSortKey field b.video

/-- `getAllVideos`: validate page/limit, `$match`, owner and likes
`$lookup`s with `$first`/`$size`, `$sort` on the allow-listed field,
then `$skip ((page-1)*limit)` and `$limit limit`. -/
def getAllVideos (videosDb : List VideoDoc) (usersDb : List UserDoc) (likesDb : List LikeDoc)
    (viewer userIdFilter : Option Id) (query : Option String)
    (sortBy sortType : String) (page limit : String) : Except Nat (List VideoView) :=
  match parsePageLimit page limit with
  | none => .error 400
  | some (p, l) =>
    let matched := videosDb.filter (videoMatchStage userIdFilter viewer query)
    let enriched := matched.map (fun v =>
      { video := v
      , ownerDetails := (usersDb.filter (fun u => u.id == v.owner)).head?
      , likesCount := likesDb.countP (fun lk => lk.video == some v.id) })
    let sorted := sortStable (videoLe (videoSortField sortBy) (sortType == "desc")) enriched
    .ok ((sorted.drop ((p - 1) * l).toNat).take l.toNat)

/-- One row of the part_003 `getVideoComments` response; here the
owner `$lookup` *does* carry a `$project {username, avatar}`
sub-pipeline, and `isLiked` is false for anonymous viewers. -/
structure CommentView where
  comment : CommentDoc
  ownerDetails : Option OwnerPublic
  likesCount : Nat
  isLiked : Bool
  deriving Repr, DecidableEq

/-- The part_003 `getVideoComments` response body: windowed records
plus pagination metadata derived from a separate
`countDocuments({video})` query. -/
structure CommentsPage where
  comments : List CommentView
  totalComments : Nat
  page : Int
  limit : Int
  totalPages : Nat
  deriving Repr, DecidableEq

/-- `$sort { createdAt: -1 }` for comment views. -/
def commentLe (a b : CommentView) : Bool :=
  b.comment.createdAt ≤ a.comment.createdAt

/-- `getVideoComments` (part_003): validate page/limit, `$match` on
the video, projected owner lookup, like count and viewer flag, sort
newest-first, window, and a separate total-count query. -/
def getVideoComments (commentsDb : List CommentDoc) (usersDb : List UserDoc)
    (likesDb : List LikeDoc) (viewer : Option Id) (videoId : Id)
    (page limit : String) : Except Nat CommentsPage :=
  match parsePageLimit page limit with
  | none => .error 400
  | some (p, l) =>
    let matched := commentsDb.filter (fun c => c.video == some videoId)
    let enriched := matched.map (fun c =>
      { comment := c
      , ownerDetails := ((usersDb.filter (fun u => u.id == c.owner)).head?).map
          (fun u => { id := u.id, username := u.username, avatar := u.avatar })
      , likesCount := likesDb.countP (fun lk => lk.comment == some c.id)
      , isLiked := match viewer with
          | some uid => likesDb.any (fun lk => lk.comment == some c.id && lk.likedBy == uid)
          | none => false })
    let sorted := sortStable commentLe enriched
    let windowed := (sorted.drop ((p - 1) * l).toNat).take l.toNat
    let total := commentsDb.countP (fun c => c.video == some videoId)
    .ok { comments := windowed, totalComments := total, page := p, limit := l
        , totalPages := (total + l.toNat - 1) / l.toNat }

/-! ## Concrete fixture documents used by counterexamples and witnesses -/

/-- A user whose stored document carries a password hash and refresh
token. -/
def aliceUser : UserDoc :=
  { id := 1, username := "alice", fullName := "Alice", avatar := "a.png"
  , password := "hash-1", refreshToken := "tok-1" }

/-- An unpublished video owned by `aliceUser`. -/
def draftVideo : VideoDoc :=
  { id := 10, owner := 1, title := "t", description := "d", views := 0
  , duration := 5, isPublished := false, createdAt := 100 }

def pubVideoA : VideoDoc :=
  { id := 11, owner := 1, title := "a", description := "da", views := 7
  , duration := 5, isPublished := true, createdAt := 30 }

def pubVideoB : VideoDoc :=
  { id := 12, owner := 1, title := "b", description := "db", views := 3
  , duration := 9, isPublished := true, createdAt := 20 }

def pubVideoC : VideoDoc :=
  { id := 13, owner := 1, title := "c", description := "dc", views := 2
  , duration := 1, isPublished := true, createdAt := 10 }

/-! ## Claim C3 -/

/-- C3.  The owner `$lookup` of `getAllVideos` has no projection
sub-pipeline, so the view's `ownerDetails` is the complete stored
`User` document: evaluating the handler over a store whose user
carries password hash "hash-1" and refresh token "tok-1" returns
those secrets in the response, contradicting the public-safe
projection the claim requires.  The dangling-owner half of the claim
does hold: with the owner deleted, the view returns
`ownerDetails = none` and no error. -/
theorem video_view_owner_details_leak :
    getAllVideos [pubVideoA] [aliceUser] [] none none none "createdAt" "desc" "1" "10"
      = .ok [{ video := pubVideoA, ownerDetails := some aliceUser, likesCount := 0 }] ∧
    aliceUser.password = "hash-1" ∧
    aliceUser.refreshToken = "tok-1" ∧
    getAllVideos [pubVideoA] [] [] none none none "createdAt" "desc" "1" "10"
      = .ok [{ video := pubVideoA, ownerDetails := none, likesCount := 0 }] :=
  ⟨rfl, rfl, rfl, rfl⟩

/-! ## Claim C4 -/

/-- C4, counterexample.  With an empty filter (no `userId` query
parameter) the match stage always demands `isPublished: true`, so the
owner of the unpublished `draftVideo`, browsing as viewer 1, gets an
empty result — the claim asserts the owner does see it. -/
theorem unpublished_hidden_even_from_owner :
    getAllVideos [draftVideo] [aliceUser] [] (some 1) none none "createdAt" "desc" "1" "10"
      = .ok [] ∧
    getAllVideos [draftVideo] [aliceUser] [] none none none "createdAt" "desc" "1" "10"
      = .ok [] ∧
    draftVideo.owner = 1 ∧ draftVideo.isPublished = false :=
  ⟨rfl, rfl, rfl, rfl⟩

/-- C4, amended: with no `userId` filter, every listed video is
published whoever the viewer is; unpublished videos are reachable
only through a `userId` filter: with `userId = uid`, the viewer `uid`
matches all of `uid`'s videos (published or not), while any other
viewer matches only the published ones. -/
theorem unpublished_visibility_amended
    (videosDb : List VideoDoc) (usersDb : List UserDoc) (likesDb : List LikeDoc)
    (viewer : Option Id) (q : Option String) (sb st page limit : String)
    (uid : Id) (v : VideoDoc) (vs : List VideoView)
    (hok : getAllVideos videosDb usersDb likesDb viewer none q sb st page limit = .ok vs) :
    (∀ w ∈ vs, w.video.isPublished = true) ∧
    videoMatchStage (some uid) (some uid) none v = (v.owner == uid) ∧
    (viewer ≠ some uid →
      videoMatchStage (some uid) viewer none v = (v.owner == uid && v.isPublished)) := by
  refine ⟨?_, ?_, ?_⟩
  · intro w hw
    unfold getAllVideos at hok
    cases hpl : parsePageLimit page limit with
    | none => rw [hpl] at hok; cases hok
    | some pl =>
      obtain ⟨p, l⟩ := pl
      rw [hpl] at hok
      simp only [Except.ok.injEq] at hok
      subst hok
      have h1 := List.mem_of_mem_take hw
      have h2 := List.mem_of_mem_drop h1
      rw [mem_sortStable] at h2
      obtain ⟨v', hv', rfl⟩ := List.mem_map.mp h2
      have hf := (List.mem_filter.mp hv').2
      unfold videoMatchStage at hf
      simp only [Bool.and_eq_true] at hf
      exact hf.1
  · simp [videoMatchStage]
  · intro hne
    have hbe : (viewer == some uid) = false := beq_eq_false_iff_ne.mpr hne
    simp [videoMatchStage, hbe]

/-- C4 amended, witness: the match stage evaluated at `draftVideo`
for `userId = 1` — owner-as-viewer keeps it, anonymous viewer
demands the published flag. -/
theorem unpublished_visibility_amended_witness :
    videoMatchStage (some 1) (some 1) none draftVideo = (draftVideo.owner == 1) ∧
    videoMatchStage (some 1) none none draftVideo
      = (draftVideo.owner == 1 && draftVideo.isPublished) :=
  ⟨(unpublished_visibility_amended [] [] [] none none "createdAt" "desc" "1" "10"
      1 draftVideo [] rfl).2.1,
   (unpublished_visibility_amended [] [] [] none none "createdAt" "desc" "1" "10"
      1 draftVideo [] rfl).2.2 (by decide)⟩

/-! ## Claim C6 -/

/-- C6, counterexample.  `getAllVideos` is a paged list query whose
response is fully determined by the returned window: two stores whose
matching-video totals differ (2 versus 3) produce identical
responses, so the response carries no total count at all — the claim
requires every paged query to return a `totalCount` from a separate
count query. -/
theorem videos_paged_response_carries_no_total :
    getAllVideos [pubVideoA, pubVideoB] [aliceUser] [] none none none
        "createdAt" "desc" "1" "2"
      = getAllVideos [pubVideoA, pubVideoB, pubVideoC] [aliceUser] [] none none none
        "createdAt" "desc" "1" "2" ∧
    (([pubVideoA, pubVideoB] : List VideoDoc).filter
        (videoMatchStage none none none)).length = 2 ∧
    (([pubVideoA, pubVideoB, pubVideoC] : List VideoDoc).filter
        (videoMatchStage none none none)).length = 3 :=
  ⟨rfl, rfl, rfl⟩

/-- C6, amended: the comments paged query does return a `totalCount`
(`totalComments`) computed by a separate whole-collection count, and
that value is invariant under the page/limit window; both paged
queries return at most `limit` records.  The videos paged query
returns no total count (see the counterexample). -/
theorem paging_total_count_amended
    (commentsDb : List CommentDoc) (usersDb : List UserDoc) (likesDb : List LikeDoc)
    (videosDb : List VideoDoc) (viewer ufilter : Option Id) (q : Option String)
    (sb st : String) (vid : Id)
    (p1 l1 p2 l2 : String) (pa la pb lb : Int)
    (h1 : parsePageLimit p1 l1 = some (pa, la))
    (h2 : parsePageLimit p2 l2 = some (pb, lb)) :
    (getVideoComments commentsDb usersDb likesDb viewer vid p1 l1).map
        (fun r => r.totalComments)
      = .ok (commentsDb.countP (fun c => c.video == some vid)) ∧
    (getVideoComments commentsDb usersDb likesDb viewer vid p2 l2).map
        (fun r => r.totalComments)
      = .ok (commentsDb.countP (fun c => c.video == some vid)) ∧
    (getVideoComments commentsDb usersDb likesDb viewer vid p1 l1).map
        (fun r => decide (r.comments.length ≤ la.toNat))
      = .ok true ∧
    (getAllVideos videosDb usersDb likesDb viewer ufilter q sb st p1 l1).map
        (fun vs => decide (vs.length ≤ la.toNat))
      = .ok true := by
  unfold getVideoComments getAllVideos
  rw [h1, h2]
  refine ⟨rfl, rfl, ?_, ?_⟩
  · simp only [Except.map, Except.ok.injEq, decide_eq_true_eq]
    rw [List.length_take]
    omega
  · simp only [Except.map, Except.ok.injEq, decide_eq_true_eq]
    rw [List.length_take]
    omega

/-- C6 amended, witness: concrete store of three comments on video 7,
windows (page 1, limit 2) and (page 2, limit 30). -/
theorem paging_total_count_amended_witness :
    (getVideoComments
        [ { id := 20, owner := 1, video := some 7, content := "x", createdAt := 1 }
        , { id := 21, owner := 1, video := some 7, content := "y", createdAt := 2 }
        , { id := 22, owner := 1, video := some 8, content := "z", createdAt := 3 } ]
        [aliceUser] [] none 7 "1" "2").map (fun r => r.totalComments)
      = .ok (([ { id := 20, owner := 1, video := some 7, content := "x", createdAt := 1 }
              , { id := 21, owner := 1, video := some 7, content := "y", createdAt := 2 }
              , { id := 22, owner := 1, video := some 8, content := "z", createdAt := 3 } ]
              : List CommentDoc).countP (fun c => c.video == some 7)) ∧
    (getVideoComments
        [ { id := 20, owner := 1, video := some 7, content := "x", createdAt := 1 }
        , { id := 21, owner := 1, video := some 7, content := "y", createdAt := 2 }
        , { id := 22, owner := 1, video := some 8, content := "z", createdAt := 3 } ]
        [aliceUser] [] none 7 "2" "30").map (fun r => r.totalComments)
      = .ok (([ { id := 20, owner := 1, video := some 7, content := "x", createdAt := 1 }
              , { id := 21, owner := 1, video := some 7, content := "y", createdAt := 2 }
              , { id := 22, owner := 1, video := some 8, content := "z", createdAt := 3 } ]
              : List CommentDoc).countP (fun c => c.video == some 7)) ∧
    (getVideoComments
        [ { id := 20, owner := 1, video := some 7, content := "x", createdAt := 1 }
        , { id := 21, owner := 1, video := some 7, content := "y", createdAt := 2 }
        , { id := 22, owner := 1, video := some 8, content := "z", createdAt := 3 } ]
        [aliceUser] [] none 7 "1" "2").map
        (fun r => decide (r.comments.length ≤ (2 : Int).toNat))
      = .ok true ∧
    (getAllVideos [pubVideoA] [aliceUser] [] none none none "createdAt" "desc" "1" "2").map
        (fun vs => decide (vs.length ≤ (2 : Int).toNat))
      = .ok true :=
  paging_total_count_amended
    [ { id := 20, owner := 1, video := some 7, content := "x", createdAt := 1 }
    , { id := 21, owner := 1, video := some 7, content := "y", createdAt := 2 }
    , { id := 22, owner := 1, video := some 8, content := "z", createdAt := 3 } ]
    [aliceUser] [] [pubVideoA] none none none "createdAt" "desc" 7
    "1" "2" "2" "30" 1 2 2 30 rfl rfl

/-! ## Claim C9 -/

/-- C9, counterexample.  `parseInt` silently truncates the
non-integer value "2.5" to 2, which then passes the `< 1` check: the
request is accepted and reaches the store with page 2 — the claim
requires every non-integer value to be rejected with a validation
failure.  -/
theorem pagination_accepts_noninteger :
    parsePageLimit "2.5" "10" = some (2, 10) ∧
    getAllVideos [] [] [] none none none "createdAt" "desc" "2.5" "10" = .ok [] :=
  ⟨rfl, rfl⟩

/-- C9, amended: whenever the validation accepts, the resulting page
and limit are positive; non-numeric, zero and negative values are
rejected with a 400 before any store access in both validating
handlers; but a non-integer numeric string is truncated by
`parseInt` and accepted rather than rejected. -/
theorem pagination_validation_amended
    (page limit : String) (p l : Int)
    (videosDb : List VideoDoc) (usersDb : List UserDoc) (likesDb : List LikeDoc)
    (commentsDb : List CommentDoc) (viewer ufilter : Option Id) (q : Option String)
    (sb st : String) (vid : Id)
    (hsome : parsePageLimit page limit = some (p, l)) :
    1 ≤ p ∧ 1 ≤ l ∧
    parsePageLimit "0" "10" = none ∧
    parsePageLimit "-3" "10" = none ∧
    parsePageLimit "abc" "10" = none ∧
    parsePageLimit "2.5" "10" = some (2, 10) ∧
    (∀ pg lim, parsePageLimit pg lim = none →
      getAllVideos videosDb usersDb likesDb viewer ufilter q sb st pg lim = .error 400 ∧
      getVideoComments commentsDb usersDb likesDb viewer vid pg lim = .error 400) := by
  have hpos : 1 ≤ p ∧ 1 ≤ l := by
    unfold parsePageLimit at hsome
    cases hp : parseIntJs page with
    | none => rw [hp] at hsome; cases hsome
    | some a =>
      cases hl : parseIntJs limit with
      | none => rw [hp, hl] at hsome; cases hsome
      | some b =>
        rw [hp, hl] at hsome
        dsimp only at hsome
        split at hsome
        · cases hsome
        · rename_i hcond
          rw [Option.some_inj, Prod.mk.injEq] at hsome
          obtain ⟨rfl, rfl⟩ := hsome
          simp only [Bool.or_eq_true, decide_eq_true_eq, not_or] at hcond
          omega
  refine ⟨hpos.1, hpos.2, rfl, rfl, rfl, rfl, ?_⟩
  intro pg lim hnone
  unfold getAllVideos getVideoComments
  rw [hnone]
  exact ⟨rfl, rfl⟩

/-- C9 amended, witness at the accepted input ("3", "10") and the
rejected input ("0", "10"). -/
theorem pagination_validation_amended_witness :
    getAllVideos [] [] [] none none none "createdAt" "desc" "0" "10" = .error 400 ∧
    getVideoComments [] [] [] none 7 "0" "10" = .error 400 :=
  (pagination_validation_amended "3" "10" 3 10 [] [] [] [] none none none
    "createdAt" "desc" 7 rfl).2.2.2.2.2.2 "0" "10" rfl

/-! ## Owner-scoped mutations (tweet/comment/video/playlist controllers)

`findOneAndDelete`/`findOneAndUpdate` with a `{_id, owner}` filter is
modelled as `find?` on the conjunction followed by `eraseP` on the
same predicate; `findByIdAndDelete(id)` — used by the first
playlist-controller variant — filters on the id alone. -/

/-- `deleteTweet` (tweet.controller.js): owner-scoped delete, then
the like cascade `Like.deleteMany({tweet})` inside try/catch; when
the cascade throws (`cascadeFails`), the error is only logged and the
200 response is still sent with the likes untouched. -/
def deleteTweet (tweetsDb : List TweetDoc) (likesDb : List LikeDoc) (caller tid : Id)
    (cascadeFails : Bool) : Except Nat (List TweetDoc × List LikeDoc × Nat) :=
  match tweetsDb.find? (fun x => x.id == tid && x.owner == caller) with
  | none => .error 404
  | some _ =>
    let tweetsDb' := tweetsDb.eraseP (fun x => x.id == tid && x.owner == caller)
    let likesDb' := if cascadeFails then likesDb
                    else likesDb.filter (fun lk => !(lk.tweet == some tid))
    .ok (tweetsDb', likesDb', 200)

/-- `deleteComment` (part_003): owner-scoped `findOneAndDelete`. -/
def deleteComment (commentsDb : List CommentDoc) (caller cid : Id) :
    Except Nat (List CommentDoc) :=
  match commentsDb.find? (fun c => c.id == cid && c.owner == caller) with
  | none => .error 404
  | some _ => .ok (commentsDb.eraseP (fun c => c.id == cid && c.owner == caller))

/-- `deleteVideo` (video.controller.js): owner-scoped
`findOneAndDelete`. -/
def deleteVideo (videosDb : List VideoDoc) (caller vid : Id) :
    Except Nat (List VideoDoc) :=
  match videosDb.find? (fun v => v.id == vid && v.owner == caller) with
  | none => .error 404
  | some _ => .ok (videosDb.eraseP (fun v => v.id == vid && v.owner == caller))

/-- `deletePlaylist`, first playlist-controller variant:
`findByIdAndDelete(playlistId)` — the handler receives the
authenticated caller but never consults it. -/
def deletePlaylistV1 (playlistsDb : List PlaylistDoc) (_caller pid : Id) :
    Except Nat (List PlaylistDoc) :=
  match playlistsDb.find? (fun p => p.id == pid) with
  | none => .error 404
  | some _ => .ok (playlistsDb.eraseP (fun p => p.id == pid))

/-- `deletePlaylist`, second playlist-controller variant: owner-scoped
`findOneAndDelete({_id, owner})`. -/
def deletePlaylistV2 (playlistsDb : List PlaylistDoc) (caller pid : Id) :
    Except Nat (List PlaylistDoc) :=
  match playlistsDb.find? (fun p => p.id == pid && p.owner == caller) with
  | none => .error 404
  | some _ => .ok (playlistsDb.eraseP (fun p => p.id == pid && p.owner == caller))

/-! ## Playlist membership (second playlist-controller variant) -/

/-- `$addToSet { videos: videoId }` on one playlist document. -/
def addToSet (p : PlaylistDoc) (vid : Id) : PlaylistDoc :=
  if p.videos.contains vid then p else { p with videos := p.videos ++ [vid] }

theorem addToSet_id (p : PlaylistDoc) (vid : Id) : (addToSet p vid).id = p.id := by
  unfold addToSet; split <;> rfl

theorem addToSet_owner (p : PlaylistDoc) (vid : Id) : (addToSet p vid).owner = p.owner := by
  unfold addToSet; split <;> rfl

/-- `addVideoToPlaylist`: check the video exists (404 otherwise),
find the playlist scoped to the caller as owner (404 otherwise); if
the video is already in the playlist answer 200 with the unchanged
document, else `findByIdAndUpdate` with `$addToSet`. -/
def addVideoToPlaylist (videosDb : List VideoDoc) (playlistsDb : List PlaylistDoc)
    (caller pid vid : Id) : Except Nat (List PlaylistDoc) :=
  match videosDb.find? (fun v => v.id == vid) with
  | none => .error 404
  | some _ =>
    match playlistsDb.find? (fun p => p.id == pid && p.owner == caller) with
    | none => .error 404
    | some p =>
      if p.videos.contains vid then .ok playlistsDb
      else .ok (playlistsDb.map (fun q => if q.id == pid then addToSet q vid else q))

/-- `removeVideoFromPlaylist`: find the playlist scoped to the caller
as owner; if the video is *not* in the playlist the handler throws a
404 ("Video not found in this playlist"); otherwise `$pull` removes
every occurrence. -/
def removeVideoFromPlaylist (playlistsDb : List PlaylistDoc) (caller pid vid : Id) :
    Except Nat (List PlaylistDoc) :=
  match playlistsDb.find? (fun p => p.id == pid && p.owner == caller) with
  | none => .error 404
  | some p =>
    if p.videos.contains vid then
      .ok (playlistsDb.map (fun q =>
        if q.id == pid then { q with videos := q.videos.filter (fun x => !(x == vid)) } else q))
    else .error 404

/-- The `$addToSet` update touches only the `videos` array, so the
owner-scoped `find?` over the updated collection is the image of the
original `find?`. -/
theorem find?_playlists_update (playlistsDb : List PlaylistDoc) (pid caller vid : Id) :
    (playlistsDb.map (fun q => if q.id == pid then addToSet q vid else q)).find?
        (fun p => p.id == pid && p.owner == caller)
      = (playlistsDb.find? (fun p => p.id == pid && p.owner == caller)).map
          (fun q => addToSet q vid) := by
  induction playlistsDb with
  | nil => rfl
  | cons a t ih =>
    simp only [List.map_cons]
    by_cases hid : (a.id == pid) = true
    · rw [if_pos hid]
      by_cases hown : (a.owner == caller) = true
      · rw [List.find?_cons_of_pos _ (by simp [addToSet_id, addToSet_owner, hid, hown]),
           List.find?_cons_of_pos _ (by simp [hid, hown])]
        rfl
      · rw [List.find?_cons_of_neg _ (by simp [addToSet_id, addToSet_owner, hown]),
           List.find?_cons_of_neg _ (by simp [hown]), ih]
    · rw [if_neg hid]
      rw [List.find?_cons_of_neg _ (by simp [hid]),
         List.find?_cons_of_neg _ (by simp [hid]), ih]

/-! ## Claim C5 -/

/-- C5, counterexample.  The first playlist-controller variant's
`deletePlaylist` filters on the id alone: caller 2 deletes the
playlist owned by user 1 — the claim requires any non-owner mutation
to leave the entity unchanged and fail as not-found. -/
theorem playlist_delete_ignores_owner :
    deletePlaylistV1
      [{ id := 5, owner := 1, name := "p", description := "", videos := [] }] 2 5
      = .ok [] := rfl

/-- C5, amended: the tweet, comment and video mutations, and the
second playlist-controller variant, scope delete to id AND owner in
one query, so a caller who owns no matching document gets a plain 404
(never a distinct 403); but the first playlist-controller variant
scopes by id alone and deletes for any caller. -/
theorem owner_scoped_mutations_amended
    (tweetsDb : List TweetDoc) (likesDb : List LikeDoc)
    (commentsDb : List CommentDoc) (videosDb : List VideoDoc)
    (playlistsDb : List PlaylistDoc) (caller tid cid vid pid : Id) (cf : Bool)
    (q : PlaylistDoc)
    (ht : ∀ t ∈ tweetsDb, t.id = tid → ¬ t.owner = caller)
    (hc : ∀ c ∈ commentsDb, c.id = cid → ¬ c.owner = caller)
    (hv : ∀ v ∈ videosDb, v.id = vid → ¬ v.owner = caller)
    (hp : ∀ pl ∈ playlistsDb, pl.id = pid → ¬ pl.owner = caller)
    (hq : playlistsDb.find? (fun pl => pl.id == pid) = some q) :
    deleteTweet tweetsDb likesDb caller tid cf = .error 404 ∧
    deleteComment commentsDb caller cid = .error 404 ∧
    deleteVideo videosDb caller vid = .error 404 ∧
    deletePlaylistV2 playlistsDb caller pid = .error 404 ∧
    deletePlaylistV1 playlistsDb caller pid
      = .ok (playlistsDb.eraseP (fun pl => pl.id == pid)) := by
  have hnt : tweetsDb.find? (fun x => x.id == tid && x.owner == caller) = none := by
    rw [List.find?_eq_none]
    intro x hx
    simp only [Bool.and_eq_true, beq_iff_eq, not_and]
    exact ht x hx
  have hnc : commentsDb.find? (fun x => x.id == cid && x.owner == caller) = none := by
    rw [List.find?_eq_none]
    intro x hx
    simp only [Bool.and_eq_true, beq_iff_eq, not_and]
    exact hc x hx
  have hnv : videosDb.find? (fun x => x.id == vid && x.owner == caller) = none := by
    rw [List.find?_eq_none]
    intro x hx
    simp only [Bool.and_eq_true, beq_iff_eq, not_and]
    exact hv x hx
  have hnp : playlistsDb.find? (fun x => x.id == pid && x.owner == caller) = none := by
    rw [List.find?_eq_none]
    intro x hx
    simp only [Bool.and_eq_true, beq_iff_eq, not_and]
    exact hp x hx
  unfold deleteTweet deleteComment deleteVideo deletePlaylistV2 deletePlaylistV1
  rw [hnt, hnc, hnv, hnp, hq]
  exact ⟨rfl, rfl, rfl, rfl, rfl⟩

/-- C5 amended, witness: caller 2 against documents owned by user 5. -/
theorem owner_scoped_mutations_amended_witness :
    deleteTweet [{ id := 1, owner := 5, content := "x" }] [] 2 1 false = .error 404 ∧
    deleteComment [{ id := 2, owner := 5, video := some 7, content := "y", createdAt := 0 }]
      2 2 = .error 404 ∧
    deleteVideo [pubVideoA] 2 11 = .error 404 ∧
    deletePlaylistV2 [{ id := 4, owner := 5, name := "p", description := "", videos := [] }]
      2 4 = .error 404 ∧
    deletePlaylistV1 [{ id := 4, owner := 5, name := "p", description := "", videos := [] }]
      2 4
      = .ok (([{ id := 4, owner := 5, name := "p", description := "", videos := [] }]
          : List PlaylistDoc).eraseP (fun pl => pl.id == 4)) :=
  owner_scoped_mutations_amended
    [{ id := 1, owner := 5, content := "x" }] []
    [{ id := 2, owner := 5, video := some 7, content := "y", createdAt := 0 }]
    [pubVideoA]
    [{ id := 4, owner := 5, name := "p", description := "", videos := [] }]
    2 1 2 11 4 false
    { id := 4, owner := 5, name := "p", description := "", videos := [] }
    (by decide) (by decide) (by decide) (by decide) rfl

/-! ## Claim C7 -/

/-- C7, counterexample.  Removing a video that is absent from the
playlist is not a no-op: the cited `removeVideoFromPlaylist` throws a
404 ("Video not found in this playlist") — here video 9 against a
playlist with an empty videos array, called by its owner. -/
theorem remove_absent_video_errors :
    removeVideoFromPlaylist
      [{ id := 5, owner := 1, name := "p", description := "", videos := [] }] 1 5 9
      = .error 404 := rfl

/-- C7, amended: playlist membership is a set on the add side — after
adding the same video twice the playlist contains it exactly once,
the second add being answered with the unchanged collection — but
removing an absent video fails with a 404 rather than being a
no-op. -/
theorem playlist_membership_amended
    (videosDb : List VideoDoc) (playlistsDb : List PlaylistDoc)
    (caller pid vid : Id) (p : PlaylistDoc) (w : VideoDoc)
    (hvid : videosDb.find? (fun v => v.id == vid) = some w)
    (hfind : playlistsDb.find? (fun q => q.id == pid && q.owner == caller) = some p)
    (habs : p.videos.contains vid = false) :
    ∃ db1, addVideoToPlaylist videosDb playlistsDb caller pid vid = .ok db1 ∧
      addVideoToPlaylist videosDb db1 caller pid vid = .ok db1 ∧
      (db1.find? (fun q => q.id == pid && q.owner == caller)).map
          (fun q => q.videos.count vid) = some 1 ∧
      removeVideoFromPlaylist playlistsDb caller pid vid = .error 404 := by
  have hnotmem : vid ∉ p.videos := by
    intro hmem
    have h := List.elem_eq_true_of_mem hmem
    rw [show p.videos.contains vid = List.elem vid p.videos from rfl, h] at habs
    cases habs
  have hcount0 : p.videos.count vid = 0 := List.count_eq_zero.mpr hnotmem
  have hadd : addToSet p vid = { p with videos := p.videos ++ [vid] } := by
    unfold addToSet
    rw [if_neg (by simp [hnotmem])]
  have hconts : (p.videos ++ [vid]).contains vid = true :=
    List.elem_eq_true_of_mem (by simp)
  refine ⟨playlistsDb.map (fun q => if q.id == pid then addToSet q vid else q), ?_, ?_, ?_, ?_⟩
  · unfold addVideoToPlaylist
    rw [hvid, hfind]
    dsimp only
    rw [if_neg (by simp [hnotmem])]
  · unfold addVideoToPlaylist
    rw [hvid, find?_playlists_update, hfind]
    simp only [Option.map_some']
    rw [hadd]
    dsimp only
    rw [if_pos hconts]
  · rw [find?_playlists_update, hfind]
    simp only [Option.map_some']
    rw [hadd]
    dsimp only
    rw [List.count_append, hcount0, List.count_singleton_self]
  · unfold removeVideoFromPlaylist
    rw [hfind]
    dsimp only
    rw [if_neg (by simp [hnotmem])]

/-- C7 amended, witness: owner 1 adds video 11 twice to playlist 5. -/
theorem playlist_membership_amended_witness :
    ∃ db1, addVideoToPlaylist [pubVideoA]
        [{ id := 5, owner := 1, name := "p", description := "", videos := [] }] 1 5 11
        = .ok db1 ∧
      addVideoToPlaylist [pubVideoA] db1 1 5 11 = .ok db1 ∧
      (db1.find? (fun q => q.id == 5 && q.owner == 1)).map
          (fun q => q.videos.count 11) = some 1 ∧
      removeVideoFromPlaylist
        [{ id := 5, owner := 1, name := "p", description := "", videos := [] }] 1 5 11
        = .error 404 :=
  playlist_membership_amended [pubVideoA]
    [{ id := 5, owner := 1, name := "p", description := "", videos := [] }]
    1 5 11 { id := 5, owner := 1, name := "p", description := "", videos := [] }
    pubVideoA rfl rfl rfl

/-! ## Claim C8 -/

/-- C8.  Deleting a tweet (owner-scoped) removes, via
`Like.deleteMany({tweet})`, every like edge whose tweet field equals
the deleted tweet's id, keeping all other likes; and when the cascade
itself fails the handler still answers 200 with the tweet deleted and
the likes untouched — the failure is only logged. -/
theorem delete_tweet_cascades_best_effort
    (tweetsDb : List TweetDoc) (likesDb : List LikeDoc) (caller tid : Id) (t : TweetDoc)
    (hfind : tweetsDb.find? (fun x => x.id == tid && x.owner == caller) = some t) :
    deleteTweet tweetsDb likesDb caller tid false
      = .ok (tweetsDb.eraseP (fun x => x.id == tid && x.owner == caller),
             likesDb.filter (fun lk => !(lk.tweet == some tid)), 200) ∧
    (likesDb.filter (fun lk => !(lk.tweet == some tid))).countP
        (fun lk => lk.tweet == some tid) = 0 ∧
    (∀ lk ∈ likesDb, ¬ lk.tweet = some tid →
      lk ∈ likesDb.filter (fun lk => !(lk.tweet == some tid))) ∧
    deleteTweet tweetsDb likesDb caller tid true
      = .ok (tweetsDb.eraseP (fun x => x.id == tid && x.owner == caller), likesDb, 200) := by
  refine ⟨?_, ?_, ?_, ?_⟩
  · unfold deleteTweet
    rw [hfind]
    rfl
  · rw [List.countP_eq_zero]
    intro lk hlk
    have := (List.mem_filter.mp hlk).2
    simp only [Bool.not_eq_eq_eq_not, Bool.not_true] at this
    simp [this]
  · intro lk hlk hne
    exact List.mem_filter.mpr ⟨hlk, by simp [hne]⟩
  · unfold deleteTweet
    rw [hfind]
    rfl

/-- C8, witness: owner 2 deletes tweet 1 carrying two likes on tweet 1
and one like on tweet 4. -/
theorem delete_tweet_cascades_best_effort_witness :
    deleteTweet [{ id := 1, owner := 2, content := "x" }]
        [ { id := 9, video := none, comment := none, tweet := some 1, likedBy := 3 }
        , { id := 8, video := none, comment := none, tweet := some 1, likedBy := 4 }
        , { id := 7, video := none, comment := none, tweet := some 4, likedBy := 3 } ]
        2 1 false
      = .ok (([{ id := 1, owner := 2, content := "x" }] : List TweetDoc).eraseP
               (fun x => x.id == 1 && x.owner == 2),
             ([ { id := 9, video := none, comment := none, tweet := some 1, likedBy := 3 }
              , { id := 8, video := none, comment := none, tweet := some 1, likedBy := 4 }
              , { id := 7, video := none, comment := none, tweet := some 4, likedBy := 3 } ]
              : List LikeDoc).filter (fun lk => !(lk.tweet == some 1)), 200) ∧
    (([ { id := 9, video := none, comment := none, tweet := some 1, likedBy := 3 }
      , { id := 8, video := none, comment := none, tweet := some 1, likedBy := 4 }
      , { id := 7, video := none, comment := none, tweet := some 4, likedBy := 3 } ]
      : List LikeDoc).filter (fun lk => !(lk.tweet == some 1))).countP
        (fun lk => lk.tweet == some 1) = 0 ∧
    deleteTweet [{ id := 1, owner := 2, content := "x" }]
        [ { id := 9, video := none, comment := none, tweet := some 1, likedBy := 3 }
        , { id := 8, video := none, comment := none, tweet := some 1, likedBy := 4 }
        , { id := 7, video := none, comment := none, tweet := some 4, likedBy := 3 } ]
        2 1 true
      = .ok (([{ id := 1, owner := 2, content := "x" }] : List TweetDoc).eraseP
               (fun x => x.id == 1 && x.owner == 2),
             [ { id := 9, video := none, comment := none, tweet := some 1, likedBy := 3 }
             , { id := 8, video := none, comment := none, tweet := some 1, likedBy := 4 }
             , { id := 7, video := none, comment := none, tweet := some 4, likedBy := 3 } ], 200) :=
  ⟨(delete_tweet_cascades_best_effort [{ id := 1, owner := 2, content := "x" }]
      [ { id := 9, video := none, comment := none, tweet := some 1, likedBy := 3 }
      , { id := 8, video := none, comment := none, tweet := some 1, likedBy := 4 }
      , { id := 7, video := none, comment := none, tweet := some 4, likedBy := 3 } ]
      2 1 { id := 1, owner := 2, content := "x" } rfl).1,
   (delete_tweet_cascades_best_effort [{ id := 1, owner := 2, content := "x" }]
      [ { id := 9, video := none, comment := none, tweet := some 1, likedBy := 3 }
      , { id := 8, video := none, comment := none, tweet := some 1, likedBy := 4 }
      , { id := 7, video := none, comment := none, tweet := some 4, likedBy := 3 } ]
      2 1 { id := 1, owner := 2, content := "x" } rfl).2.1,
   (delete_tweet_cascades_best_effort [{ id := 1, owner := 2, content := "x" }]
      [ { id := 9, video := none, comment := none, tweet := some 1, likedBy := 3 }
      , { id := 8, video := none, comment := none, tweet := some 1, likedBy := 4 }
      , { id := 7, video := none, comment := none, tweet := some 4, likedBy := 3 } ]
      2 1 { id := 1, owner := 2, content := "x" } rfl).2.2.2⟩

end ChaiBackend
